import Mathlib

/-!
Shallow embedding of the trekka-api media-sync core (Go) in Lean 4.

Each definition mirrors one Go function of the repository; external effects
(the Drive HTTP API, Firebase Storage/Firestore, the Nominatim geocoder, the
EXIF/HEIC libraries, wall-clock time) are passed in as explicit oracle values
or functions, so every definition is executable.  Machine `float64` values are
modelled exactly as dyadic rationals (sign, mantissa, binary exponent) with
IEEE round-to-nearest-even, and Go's `fmt %.Nf` as correctly rounded decimal
formatting of that exact value.  Go's `error` values are modelled by the
inductive `GoError`, with `errors.Is` / `errors.As` walking the `%w` wrap
chain exactly as in the Go runtime.  Go `time.Time` instants are modelled as
integers whose zero value corresponds to `time.Time{}.IsZero()`.
-/

namespace Trekka

/-- Go `error` values as used by this repository: sentinels created by
`errors.New` (identity semantics; only `errors.ErrNotFound` from
internal/errors/errors.go is relevant here), non-wrapping `fmt.Errorf`
values, `%w`-wrapping `fmt.Errorf` values, and `googleapi.Error` values
carrying an HTTP status code. -/
inductive GoError where
  | sentinelNotFound : GoError
  | errorf (msg : String) : GoError
  | wrap (msg : String) (inner : GoError) : GoError
  | googleapiError (code : Nat) (msg : String) : GoError
deriving DecidableEq, Repr

/-- `errors.Is(err, target)`: equality with the target, walking the `Unwrap`
chain of `%w`-wrapped errors. -/
def errorsIs : GoError → GoError → Bool
  | e, t =>
    (e = t) ||
      match e with
      | .wrap _ inner => errorsIs inner t
      | _ => false

/-- `errors.As(err, &apiErr)` for `*googleapi.Error`: the HTTP code of the
first `googleapi.Error` in the unwrap chain, if any. -/
def errorsAsGoogleapi : GoError → Option Nat
  | .googleapiError code _ => some code
  | .wrap _ inner => errorsAsGoogleapi inner
  | _ => none

instance instDecEqExcept {ε α : Type} [DecidableEq ε] [DecidableEq α] :
    DecidableEq (Except ε α) := fun a b =>
  match a, b with
  | .error x, .error y =>
      if h : x = y then isTrue (congrArg Except.error h)
      else isFalse (fun hh => h (by cases hh; rfl))
  | .ok x, .ok y =>
      if h : x = y then isTrue (congrArg Except.ok h)
      else isFalse (fun hh => h (by cases hh; rfl))
  | .error _, .ok _ => isFalse (fun hh => Except.noConfusion hh)
  | .ok _, .error _ => isFalse (fun hh => Except.noConfusion hh)

/-- The rate-limit classification used throughout the source:
`errors.As(err, &apiErr) && (apiErr.Code == 403 || apiErr.Code == 429)`. -/
def isRateLimitErr (e : GoError) : Bool :=
  match errorsAsGoogleapi e with
  | some code => code = 403 || code = 429
  | none => false

/-! ## Exact model of Go float64 values and `fmt` fixed-point formatting -/

/-- A finite IEEE-754 binary64 value, represented exactly: the value is
`(-1)^neg * mant * 2^exp`.  Subnormals/overflow are irrelevant at the
magnitudes this program handles (geographic coordinates). -/
structure GoFloat where
  neg : Bool
  mant : Nat
  exp : Int
deriving DecidableEq, Repr

/-- Round `a / b` to the nearest natural, ties to even (IEEE default and the
rounding Go's `strconv` formatting performs). -/
def rhe (a b : Nat) : Nat :=
  let q := a / b
  let r := a % b
  if 2 * r < b then q
  else if b < 2 * r then q + 1
  else if q % 2 = 0 then q else q + 1

/-- Fueled floor-log2 so that the kernel can evaluate it. -/
def log2Fuel : Nat → Nat → Nat
  | 0, _ => 0
  | fuel + 1, n => if 2 ≤ n then log2Fuel fuel (n / 2) + 1 else 0

/-- `⌊log2 n⌋` (0 at 0), structurally recursive. -/
def floorLog2 (n : Nat) : Nat := log2Fuel n n

/-- The binary64 value nearest to the decimal `(-1)^neg * N / 10^k`
(round-to-nearest-even), computed exactly: `e` is `floor(log2(N/10^k))`
(using `10^k ≤ 2^(4k)` to stay in naturals) and the 53-bit mantissa is the
correctly rounded scaling of the decimal. -/
def float64OfDecimal (neg : Bool) (N k : Nat) : GoFloat :=
  if N = 0 then ⟨neg, 0, 0⟩
  else
    let t := 4 * k
    let e : Int := (floorLog2 (N * 2 ^ t / 10 ^ k) : Int) - t
    let se : Int := 52 - e
    let m :=
      if 0 ≤ se then rhe (N * 2 ^ se.toNat) (10 ^ k)
      else rhe N (10 ^ k * 2 ^ (-se).toNat)
    ⟨neg, m, e - 52⟩

/-- Decimal digits to a natural. -/
def digitsToNat (l : List Char) : Nat :=
  l.foldl (fun acc c => acc * 10 + (c.toNat - 48)) 0

/-- `strconv.ParseFloat(s, 64)` on the plain decimal forms this program
feeds it (optional sign, digits, optional fraction); scientific/hex/inf
notations never reach it here and are rejected.  Returns the exact nearest
binary64 value. -/
def parseGoFloat (s : String) : Option GoFloat :=
  let cs := s.toList
  let signed :=
    match cs with
    | '-' :: rest => (true, rest)
    | '+' :: rest => (false, rest)
    | _ => (false, cs)
  let neg := signed.1
  let body := signed.2
  let ip := body.takeWhile Char.isDigit
  let rest := body.dropWhile Char.isDigit
  match rest with
  | [] =>
      if ip.isEmpty then none
      else some (float64OfDecimal neg (digitsToNat ip) 0)
  | '.' :: fp =>
      if fp.all Char.isDigit && !(ip.isEmpty && fp.isEmpty) then
        some (float64OfDecimal neg (digitsToNat (ip ++ fp)) fp.length)
      else none
  | _ => none

/-- Left-pad a digit string with zeros to width `p`. -/
def padZeros (p : Nat) (s : String) : String :=
  String.mk (List.replicate (p - s.length) '0') ++ s

/-- Go `fmt.Sprintf("%.<p>f", x)`: the exact binary64 value rounded to `p`
decimal places (nearest, ties to even) and rendered with a fixed number of
fraction digits; the sign of a negative value is kept even when the digits
round to zero, as Go does. -/
def formatFixed (p : Nat) (f : GoFloat) : String :=
  let n :=
    if 0 ≤ f.exp then f.mant * 10 ^ p * 2 ^ f.exp.toNat
    else rhe (f.mant * 10 ^ p) (2 ^ (-f.exp).toNat)
  let ip := n / 10 ^ p
  let fp := n % 10 ^ p
  (if f.neg then "-" else "") ++ Nat.repr ip ++
    (if p = 0 then "" else "." ++ padZeros p (Nat.repr fp))

/-- `strings.HasPrefix`. -/
def hasPrefixGo (s pre : String) : Bool :=
  pre.toList.isPrefixOf s.toList

/-- ASCII lower-casing of one character (`strings.ToLower` on the ASCII
MIME strings this program handles). -/
def charToLowerGo (c : Char) : Char :=
  if 65 ≤ c.toNat && c.toNat ≤ 90 then Char.ofNat (c.toNat + 32) else c

/-- `strings.ToLower`. -/
def toLowerGo (s : String) : String :=
  String.mk (s.toList.map charToLowerGo)

/-- ASCII whitespace as trimmed by `strings.TrimSpace` on the inputs this
program sees. -/
def isSpaceChar (c : Char) : Bool :=
  c = ' ' || c = '\t' || c = '\n' || c = '\r'

/-- `strings.TrimSpace`. -/
def trimSpace (s : String) : String :=
  String.mk ((((s.toList).dropWhile isSpaceChar).reverse.dropWhile isSpaceChar).reverse)

/-! ## Data model (src/unnamed/part_007 models, current variant) -/

/-- `models.Coordinates`: decimal-string latitude/longitude pair. -/
structure Coordinates where
  lng : String
  lat : String
deriving DecidableEq, Repr

/-- `models.ImageMetadata` (the variant with formattedDate/resolution/takenAt,
which internal/utils/exif.go and internal/services/metadata.go compile
against).  `time.Time` instants are integers; the Go zero time is `0`. -/
structure ImageMetadata where
  id : String
  fileName : String
  contentType : String
  coordinates : Coordinates
  storagePath : String
  geoLocation : String
  formattedDate : String
  resolution : List Nat
  takenAt : Int
  createdAt : Int
  updatedAt : Int
deriving DecidableEq, Repr

/-- `models.CacheEntry` (the byte-payload variant both provided
`CacheService.Set` implementations compile against). -/
structure CacheEntry where
  data : List Nat
  contentType : String
  geoLocation : String
  fileName : String
  expires : Int
deriving DecidableEq, Repr

/-- The `Location` part of Drive's `imageMediaMetadata`. -/
structure DriveImageMeta where
  location : Option (GoFloat × GoFloat)
  time : String
deriving DecidableEq, Repr

/-- A `*drive.File` descriptor restricted to the fields this core reads. -/
structure DriveFile where
  id : String
  name : String
  mimeType : String
  fileExtension : String
  createdTime : String
  imageMediaMetadata : Option DriveImageMeta
deriving DecidableEq, Repr

/-! ## Association-list model of Go maps (lookup finds the live binding) -/

/-- Go map write `m[k] = v`. -/
def mapSet {α : Type} (m : List (String × α)) (k : String) (v : α) :
    List (String × α) :=
  (k, v) :: m.filter (fun p => p.1 != k)

/-- Go map read `v, ok := m[k]`. -/
def mapGet? {α : Type} (m : List (String × α)) (k : String) : Option α :=
  (m.find? (fun p => p.1 == k)).map (·.2)

/-- Go map read `m[k]` on a `map[string]string` (zero value `""`). -/
def mapGetD (m : List (String × String)) (k : String) : String :=
  (mapGet? m k).getD ""

namespace utils

/-! ### internal/utils (heicFunctions.go, exif.go) and the part_015 variant -/

/-- Does `sub` occur as a contiguous run in `l`? -/
def containsAux (sub : List Char) : List Char → Bool
  | [] => sub.isEmpty
  | c :: rest => sub.isPrefixOf (c :: rest) || containsAux sub rest

/-- `strings.Contains(s, sub)`. -/
def containsSub (s sub : String) : Bool :=
  containsAux sub.toList s.toList

/-- `utils.IsHeifLike` (heicFunctions.go lines 18-21). -/
def IsHeifLike (mimeType : String) : Bool :=
  let t := toLowerGo mimeType
  containsSub t "heic" || containsSub t "heif"

/-- `filepath.Ext` on the plain (slash-free) Drive file names this program
passes it: the suffix beginning at the final dot, `""` when there is none. -/
def filepathExt (name : String) : String :=
  let rcs := name.toList.reverse
  let tail := rcs.takeWhile (fun c => !(c = '.' || c = '/'))
  match rcs.drop tail.length with
  | '.' :: _ => String.mk ('.' :: tail.reverse)
  | _ => ""

/-- `strings.TrimSuffix`. -/
def trimSuffix (s suf : String) : String :=
  if suf.toList.isSuffixOf s.toList then
    String.mk (s.toList.take (s.toList.length - suf.toList.length))
  else s

/-- `utils.ConvertIfHeic` (heicFunctions.go lines 88-106).  The HEIC decoder
plus JPEG re-encoder (`ConvertHeicToJpeg`) is the oracle `conv`. -/
def ConvertIfHeic (conv : List Nat → Except GoError (List Nat))
    (name mime : String) (data : List Nat) : String × String × List Nat :=
  if !IsHeifLike mime then (name, mime, data)
  else
    match conv data with
    | .error _ => (name, mime, data)
    | .ok jpeg =>
        let ext := filepathExt name
        let newName := if ext ≠ "" then trimSuffix name ext ++ ".jpg" else name
        (newName, "image/jpeg", jpeg)

/-- `utils.hasEmptyFields` (internal/utils/exif.go lines 84-103, current
variant: it also requires a non-zero `TakenAt`). -/
def hasEmptyFields (m : ImageMetadata) (ignoreGeoLoc : Bool) : Bool :=
  if m.geoLocation = "" && !ignoreGeoLoc then true
  else if m.coordinates.lat = "" || m.coordinates.lng = "" then true
  else if m.formattedDate = "" then true
  else if m.takenAt = 0 then true
  else false

/-- `utils.HasEmptyFields` (exif.go lines 105-107). -/
def HasEmptyFields (m : ImageMetadata) : Bool := hasEmptyFields m false

/-- `utils.HasEmptyFieldsSkipGeolocation` (exif.go lines 109-111). -/
def HasEmptyFieldsSkipGeolocation (m : ImageMetadata) : Bool :=
  hasEmptyFields m true

/-- A `time.Time` as the EXIF library hands it to this code; `Format` output
is modelled as UTC (`Z` suffix) — no claim inspects the zone. -/
structure DateTimeParts where
  year : Nat
  month : Nat
  day : Nat
  hour : Nat
  minute : Nat
  second : Nat
deriving DecidableEq, Repr

/-- Two-digit zero-padded decimal. -/
def pad2 (n : Nat) : String := padZeros 2 (Nat.repr n)

/-- Four-digit zero-padded decimal. -/
def pad4 (n : Nat) : String := padZeros 4 (Nat.repr n)

/-- `t.Format("2006-01-02T15:04:05Z07:00")`. -/
def formatRFC3339 (t : DateTimeParts) : String :=
  pad4 t.year ++ "-" ++ pad2 t.month ++ "-" ++ pad2 t.day ++ "T" ++
    pad2 t.hour ++ ":" ++ pad2 t.minute ++ ":" ++ pad2 t.second ++ "Z"

def isLeapYear (y : Nat) : Bool :=
  (y % 4 = 0 && y % 100 ≠ 0) || y % 400 = 0

def daysInMonth (y m : Nat) : Nat :=
  if m = 2 then (if isLeapYear y then 29 else 28)
  else if m = 4 || m = 6 || m = 9 || m = 11 then 30
  else 31

/-- `time.Parse("2006:01:02 15:04:05", s)`: the fixed-width EXIF layout with
Go's range validation (month, day-in-month, hour, minute, second). -/
def parseExifDateTime (s : String) : Option DateTimeParts :=
  match s.toList with
  | [y1, y2, y3, y4, c1, m1, m2, c2, d1, d2, sp, h1, h2, c3, n1, n2, c4, s1, s2] =>
      if [y1, y2, y3, y4, m1, m2, d1, d2, h1, h2, n1, n2, s1, s2].all Char.isDigit
          && c1 = ':' && c2 = ':' && sp = ' ' && c3 = ':' && c4 = ':' then
        let y := digitsToNat [y1, y2, y3, y4]
        let mo := digitsToNat [m1, m2]
        let d := digitsToNat [d1, d2]
        let h := digitsToNat [h1, h2]
        let mi := digitsToNat [n1, n2]
        let sec := digitsToNat [s1, s2]
        if 1 ≤ mo && mo ≤ 12 && 1 ≤ d && d ≤ daysInMonth y mo
            && h ≤ 23 && mi ≤ 59 && sec ≤ 59 then
          some ⟨y, mo, d, h, mi, sec⟩
        else none
      else none
  | _ => none

/-- An EXIF tag as returned by `x.Get`: only its `StringVal()` outcome is
read by this code. -/
structure ExifTag where
  stringVal : Except GoError String

/-- The behavior of the `goexif` library (and `image.DecodeConfig`) on one
byte slice: the oracle record for `utils.ExtractData`. -/
structure ExifInput where
  /-- `exif.Decode` failure, if any. -/
  decodeErr : Option GoError
  /-- `x.LatLong()`. -/
  latLong : Except GoError (GoFloat × GoFloat)
  /-- `x.DateTime()`. -/
  dateTime : Except GoError DateTimeParts
  /-- `x.Get(exif.DateTimeOriginal)`. -/
  dateTimeOriginal : Except GoError ExifTag
  /-- `image.DecodeConfig` width/height. -/
  decodeConfig : Except GoError (Nat × Nat)

/-- The timestamp-selection statements both `ExtractData` variants share:
try `x.DateTime()`, then fall back to the `DateTimeOriginal` tag with its
own re-parsing, tracking the last error.  Returns the formatted timestamp
(possibly `""`) and that error. -/
def timestampOfExif (x : ExifInput) : String × Option GoError :=
  let primary : String × Option GoError :=
    match x.dateTime with
    | .ok dt => (formatRFC3339 dt, none)
    | .error e => ("", some e)
  if primary.1 = "" then
    match x.dateTimeOriginal with
    | .error getErr => ("", some getErr)
    | .ok tag =>
        match tag.stringVal with
        | .error strErr => ("", some strErr)
        | .ok dateStr =>
            match parseExifDateTime dateStr with
            | none => ("", some (.errorf ("cannot parse " ++ dateStr)))
            | some t => (formatRFC3339 t, primary.2)
  else primary

/-- `utils.ExtractData` (internal/utils/exif.go lines 17-81): returns
`(coords, timestamp, resolution, err)` exactly as the Go 4-tuple. -/
def ExtractData (x : ExifInput) :
    Coordinates × String × List Nat × Option GoError :=
  match x.decodeErr with
  | some e => (⟨"", ""⟩, "", [], some (.wrap "failed to decode EXIF" e))
  | none =>
  match x.latLong with
  | .error e => (⟨"", ""⟩, "", [], some (.wrap "no GPS data found" e))
  | .ok (lat, lon) =>
      let afterFallback := timestampOfExif x
      if afterFallback.1 = "" then
        (⟨"", ""⟩, "", [],
          some (.wrap "failed to parse timestamp"
            ((afterFallback.2).getD (.errorf "nil"))))
      else
        let coords : Coordinates := ⟨formatFixed 6 lon, formatFixed 6 lat⟩
        let resolution :=
          match x.decodeConfig with
          | .ok (w, h) => if 0 < w && 0 < h then [w, h] else []
          | .error _ => []
        (coords, afterFallback.1, resolution, none)

end utils

namespace V15

/-! ### src/unnamed/part_015: the utils variant the part_013 resolver
compiles against -/

/-- `utils.HasEmptyFields` (part_015 lines 73-88): like the current
`hasEmptyFields` but with no `TakenAt` check. -/
def HasEmptyFields (m : ImageMetadata) (ignoreGeoLoc : Bool) : Bool :=
  if m.geoLocation = "" && !ignoreGeoLoc then true
  else if m.coordinates.lat = "" || m.coordinates.lng = "" then true
  else if m.formattedDate = "" then true
  else false

/-- `utils.ExtractData` (part_015 lines 14-70): the 3-value variant without
resolution extraction. -/
def ExtractData (x : utils.ExifInput) :
    Coordinates × String × Option GoError :=
  match x.decodeErr with
  | some e => (⟨"", ""⟩, "", some (.wrap "failed to decode EXIF" e))
  | none =>
  match x.latLong with
  | .error e => (⟨"", ""⟩, "", some (.wrap "no GPS data found" e))
  | .ok (lat, lon) =>
      let afterFallback := utils.timestampOfExif x
      if afterFallback.1 = "" then
        (⟨"", ""⟩, "",
          some (.wrap "failed to parse timestamp"
            ((afterFallback.2).getD (.errorf "nil"))))
      else
        (⟨formatFixed 6 lon, formatFixed 6 lat⟩, afterFallback.1, none)

end V15

/-! ## DriveClient (src/unnamed/part_010) -/

/-- Outcome of one `d.client.Files.Get(id).Download()` attempt plus the
subsequent `io.ReadAll`. -/
inductive DlAttempt where
  | httpErr (e : GoError) : DlAttempt
  | bodyErr (e : GoError) : DlAttempt
  | ok (data : List Nat) : DlAttempt
deriving DecidableEq, Repr

namespace DriveClient

/-- Loop of `DownloadBytes` (part_010 lines 90-132): `attempt` is the Go
loop counter, `fuel` the remaining iterations (the loop runs for
`attempt = 0..5`), and `sleeps` accumulates the backoff sleeps
`backoff * (1 << attempt)` in seconds (`backoff = 5s`). -/
def downloadBytesGo (attempts : Nat → DlAttempt) :
    Nat → Nat → List Nat → Except GoError (List Nat) × List Nat
  | _, 0, sleeps =>
      (.error (.errorf "failed to download file after 5 retries"), sleeps)
  | attempt, fuel + 1, sleeps =>
      match attempts attempt with
      | .ok data => (.ok data, sleeps)
      | .bodyErr e => (.error (.wrap "failed to read response body" e), sleeps)
      | .httpErr e =>
          if isRateLimitErr e && attempt < 5 then
            downloadBytesGo attempts (attempt + 1) fuel (sleeps ++ [5 * 2 ^ attempt])
          else
            (.error e, sleeps)

/-- `DriveClient.DownloadBytes`: the result together with the list of
backoff sleeps (seconds) performed. -/
def DownloadBytes (attempts : Nat → DlAttempt) :
    Except GoError (List Nat) × List Nat :=
  downloadBytesGo attempts 0 6 []

/-- Loop of `Find` (part_010 lines 45-87): the Drive list call for each
attempt is the oracle; the loop runs for `attempt = 0..3`
(`maxRetries = 3`). -/
def findGo (listCall : Nat → Except GoError (List DriveFile)) (name : String) :
    Nat → Nat → Except GoError DriveFile
  | _, 0 => .error (.errorf "failed to find file after 3 retries")
  | attempt, fuel + 1 =>
      match listCall attempt with
      | .error e =>
          if isRateLimitErr e && attempt < 3 then
            findGo listCall name (attempt + 1) fuel
          else .error e
      | .ok [] => .error (.errorf ("file not found in drive: " ++ name))
      | .ok (f :: _) => .ok f

/-- `DriveClient.Find`. -/
def Find (listCall : Nat → Except GoError (List DriveFile)) (name : String) :
    Except GoError DriveFile :=
  findGo listCall name 0 4

end DriveClient

/-! ## GeocodingService (internal/services/geocoding.go) -/

/-- The `address` object of Nominatim's parsed JSON response. -/
structure NominatimAddress where
  city : String
  town : String
  village : String
  country : String
deriving DecidableEq, Repr

namespace GeocodingService

/-- `firstNonEmpty` (geocoding.go lines 178-185). -/
def firstNonEmpty (values : List String) : String :=
  (values.find? (fun v => v != "")).getD ""

/-- `extractLocation` (geocoding.go lines 159-175). -/
def extractLocation (n : NominatimAddress) : String :=
  let city := firstNonEmpty [n.city, n.town, n.village]
  let country := n.country
  if city ≠ "" && country ≠ "" then city ++ ", " ++ country
  else if city ≠ "" then city
  else country

/-- `normalizeCoordinates` (geocoding.go lines 104-117): parse both strings,
build the `%.4f,%.4f` cache key. -/
def normalizeCoordinates (c : Coordinates) :
    Except GoError (GoFloat × GoFloat × String) :=
  match parseGoFloat (trimSpace c.lat) with
  | none => .error (.errorf "invalid latitude")
  | some lat =>
      match parseGoFloat (trimSpace c.lng) with
      | none => .error (.errorf "invalid longitude")
      | some lng => .ok (lat, lng, formatFixed 4 lat ++ "," ++ formatFixed 4 lng)

/-- The mutable state of a `GeocodingService`: the cache map and (for the
claims about upstream traffic) a count of Nominatim HTTP requests made. -/
structure GeoState where
  cache : List (String × String)
  upstreamCalls : Nat
deriving DecidableEq, Repr

/-- `NewGeocodingService()`: empty cache, no upstream calls yet. -/
def initState : GeoState := ⟨[], 0⟩

/-- `ReverseGeocode` (geocoding.go lines 63-100), sequential semantics.
`upstream` is the Nominatim HTTP endpoint (the body of `fetchLocation` up to
JSON parsing); `extractLocation` is applied to its response as in the
source.  The rate-limiter wait always succeeds (no cancellation). -/
def ReverseGeocode (upstream : GoFloat → GoFloat → Except GoError NominatimAddress)
    (st : GeoState) (c : Coordinates) : Except GoError String × GeoState :=
  match normalizeCoordinates c with
  | .error e => (.error e, st)
  | .ok (lat, lng, key) =>
      let cached := mapGetD st.cache key
      if cached ≠ "" then (.ok cached, st)
      else
        let st1 : GeoState := ⟨st.cache, st.upstreamCalls + 1⟩
        match upstream lat lng with
        | .error e => (.error e, st1)
        | .ok resp =>
            let result := extractLocation resp
            let cached2 := mapGetD st1.cache key
            if cached2 ≠ "" then (.ok cached2, st1)
            else (.ok result, ⟨mapSet st1.cache key result, st1.upstreamCalls⟩)

end GeocodingService

/-! ## CacheService: both provided variants -/

namespace CacheGo

/-- `CacheService.Set` (internal/services/cache.go lines 49-60): writes the
entry unconditionally. -/
def Set (ttl now : Int) (cache : List (String × CacheEntry)) (key : String)
    (data : List Nat) (contentType geoLocation fileName : String) :
    List (String × CacheEntry) :=
  mapSet cache key ⟨data, contentType, geoLocation, fileName, now + ttl⟩

/-- `CacheService.Get` (cache.go lines 31-45). -/
def Get (now : Int) (cache : List (String × CacheEntry)) (key : String) :
    Option CacheEntry × Bool :=
  match mapGet? cache key with
  | none => (none, false)
  | some entry =>
      if entry.expires < now then (none, false) else (some entry, true)

end CacheGo

namespace Cache009

/-- `CacheService.Set` (src/unnamed/part_009 lines 52-67): returns early on
an empty key or empty payload. -/
def Set (ttl now : Int) (cache : List (String × CacheEntry)) (key : String)
    (data : List Nat) (contentType geoLocation fileName : String) :
    List (String × CacheEntry) :=
  if key = "" || data.isEmpty then cache
  else mapSet cache key ⟨data, contentType, geoLocation, fileName, now + ttl⟩

end Cache009

/-! ## DriveService (internal/services/driveService.go, current variant) -/

/-- The collaborators of one `SyncFile` run, as oracles: the Firestore
lookup (its error is discarded by `existing, _ := ...`), the Drive download
under its 5-minute timeout, `ConvertHeicToJpeg`, the Storage upload, and
`resolveAndPersist`. -/
structure SyncOracles where
  firestoreLookup : Option ImageMetadata
  download : Except GoError (List Nat)
  convert : List Nat → Except GoError (List Nat)
  upload : String → List Nat → String → Except GoError Unit
  resolvePersist : String → String → List Nat → Option ImageMetadata →
    Except GoError Unit

namespace DriveService

/-- Lines 104-111 of SyncFile: upload the final bytes, then resolve and
persist metadata. -/
def uploadAndPersist (oc : SyncOracles) (finalName finalMime : String)
    (finalData : List Nat) (existing : Option ImageMetadata) :
    Except GoError Unit :=
  match oc.upload finalName finalData finalMime with
  | .error e => .error (.wrap "upload to storage failed" e)
  | .ok _ => oc.resolvePersist finalName finalMime finalData existing

/-- `DriveService.SyncFile` (driveService.go lines 50-112).  The second
component records whether the Drive download was performed (false on every
skip path). -/
def SyncFile (oc : SyncOracles) (file : DriveFile) (skipExisting : Bool) :
    Except GoError Unit × Bool :=
  let isImage := hasPrefixGo file.mimeType "image/"
  let isVideo := hasPrefixGo file.mimeType "video/"
  if !isImage && !isVideo then (.ok (), false)
  else
    let existing := oc.firestoreLookup
    if skipExisting && existing.isSome then (.ok (), false)
    else if (match existing with
             | some m => !utils.HasEmptyFields m
             | none => false) then (.ok (), false)
    else
      match oc.download with
      | .error e => (.error (.wrap "download from drive failed" e), true)
      | .ok raw =>
          let final : String × String × List Nat :=
            if utils.IsHeifLike file.mimeType then
              match oc.convert raw with
              | .error _ => (file.name, file.mimeType, raw)
              | .ok jpeg =>
                  let ext := utils.filepathExt file.name
                  ((if ext ≠ "" then utils.trimSuffix file.name ext ++ ".jpg"
                    else file.name), "image/jpeg", jpeg)
            else (file.name, file.mimeType, raw)
          (uploadAndPersist oc final.1 final.2.1 final.2.2 existing, true)

/-- One per-file outcome of `SyncFile` as seen by the backfill loop. -/
inductive FileOutcome where
  | ok : FileOutcome
  | err (e : GoError) : FileOutcome
deriving DecidableEq, Repr

/-- The counters of `BackfillFromDrive` plus, for the claims about the
circuit breaker, the number of 5-minute cooldown sleeps taken. -/
structure BackfillState where
  newCount : Nat
  errCount : Nat
  consecutiveErrors : Nat
  cooldowns : Nat
deriving DecidableEq, Repr

/-- One iteration of the backfill loop body (driveService.go lines 152-181):
on error, bump the counters and — when the current error is rate-limited and
`consecutiveErrors >= 3` — sleep the 5-minute cooldown and reset the
counter; on success reset the counter. -/
def backfillStep (st : BackfillState) (o : FileOutcome) : BackfillState :=
  match o with
  | .err e =>
      let bumped : BackfillState :=
        ⟨st.newCount, st.errCount + 1, st.consecutiveErrors + 1, st.cooldowns⟩
      if isRateLimitErr e && 3 ≤ bumped.consecutiveErrors then
        ⟨bumped.newCount, bumped.errCount, 0, bumped.cooldowns + 1⟩
      else bumped
  | .ok => ⟨st.newCount + 1, st.errCount, 0, st.cooldowns⟩

/-- `BackfillFromDrive` (driveService.go lines 136-188) over the sequence of
per-file outcomes: final counters and the aggregate result (no cancellation
is modelled; the listing has already succeeded). -/
def BackfillFromDrive (outcomes : List FileOutcome) :
    BackfillState × Except GoError Unit :=
  let st := outcomes.foldl backfillStep ⟨0, 0, 0, 0⟩
  (st,
    if 0 < st.errCount then
      .error (.errorf ("backfill completed with " ++ Nat.repr st.errCount ++ " errors"))
    else .ok ())

end DriveService

/-! ## MetadataResolver (src/unnamed/part_013) -/

/-- Collaborators of one `resolveMetadata` run, as oracles. -/
structure ResolverOracles where
  /-- `storage.FetchFile(ctx, metadata.StoragePath)`. -/
  fetchFile : Except GoError (List Nat)
  /-- goexif behavior on the fetched bytes (input to `utils.ExtractData`). -/
  exifOfStorageBytes : utils.ExifInput
  /-- `r.drive != nil && r.folderID != ""`. -/
  driveConfigured : Bool
  /-- `r.drive.Find(ctx, r.folderID, metadata.FileName)`. -/
  findInDrive : Except GoError DriveFile
  /-- `r.geocoder.ReverseGeocode`. -/
  geocode : Coordinates → Except GoError String
  /-- `utils.FormatTimestamp` (part_015): pure, but its internals are
  irrelevant to every claim, so it is passed in. -/
  formatTimestamp : String → Except GoError String
  /-- `time.Now()` at the end of the run. -/
  now : Int

namespace MetadataResolver

/-- `extractDataFromDriveMetadata` (part_013 lines 129-153). -/
def extractDataFromDriveMetadata (f : DriveFile) :
    Except GoError (Coordinates × String) :=
  match f.imageMediaMetadata with
  | none => .error (.errorf "no image metadata in Drive file")
  | some meta =>
      match meta.location with
      | none => .error (.errorf "no location data in Drive metadata")
      | some (lat, lon) =>
          if lat.mant = 0 && lon.mant = 0 then
            .error (.errorf "GPS coordinates are zero")
          else
            .ok (⟨formatFixed 6 lon, formatFixed 6 lat⟩, meta.time)

/-- `resolveMetadata` (part_013 lines 53-125).  The second component records
whether the Drive-metadata stage was entered (i.e. `Find` was called). -/
def resolveMetadata (oc : ResolverOracles) (metadata : ImageMetadata)
    (skipStorage : Bool) : ImageMetadata × Bool :=
  let init : Option Coordinates × String :=
    if !V15.HasEmptyFields metadata true then
      (some metadata.coordinates, metadata.formattedDate)
    else (none, "")
  let afterStorage : Option Coordinates × String :=
    if !skipStorage && init.1.isNone then
      match oc.fetchFile with
      | .error _ => init
      | .ok _data =>
          match V15.ExtractData oc.exifOfStorageBytes with
          | (coords, extractedTimestamp, none) => (some coords, extractedTimestamp)
          | (_, _, some _) => init
    else init
  let driveEntered :=
    (afterStorage.1.isNone || afterStorage.2 = "") && oc.driveConfigured
  let afterDrive : Option Coordinates × String :=
    if driveEntered then
      match oc.findInDrive with
      | .error _ => afterStorage
      | .ok file =>
          match extractDataFromDriveMetadata file with
          | .error _ => afterStorage
          | .ok (extractedGPS, extractedTimestamp) =>
              ((if afterStorage.1.isNone then some extractedGPS else afterStorage.1),
               (if afterStorage.2 = "" then extractedTimestamp else afterStorage.2))
    else afterStorage
  let md1 :=
    match afterDrive.1 with
    | some gps =>
        let withCoords := { metadata with coordinates := gps }
        match oc.geocode gps with
        | .ok location =>
            if location ≠ "" then { withCoords with geoLocation := location }
            else withCoords
        | .error _ => withCoords
    | none => metadata
  let md2 :=
    if afterDrive.2 ≠ "" then
      match oc.formatTimestamp afterDrive.2 with
      | .ok f => { md1 with formattedDate := f }
      | .error _ => md1
    else md1
  ({ md2 with updatedAt := oc.now }, driveEntered)

/-- `ResolveMetadata` (part_013 lines 44-46). -/
def ResolveMetadata (oc : ResolverOracles) (metadata : ImageMetadata) :
    ImageMetadata × Bool :=
  resolveMetadata oc metadata false

end MetadataResolver

/-! ## Concrete instances used by witnesses and counterexamples -/

/-- A record whose coordinates, place name and formatted date are all
non-empty but whose `TakenAt` is the zero time. -/
def metaNoTakenAt : ImageMetadata :=
  ⟨"rec1", "beach.jpg", "image/jpeg", ⟨"-0.127800", "51.507400"⟩, "beach.jpg",
   "London, United Kingdom", "Wednesday, 15 January 2025, 14:30",
   [4032, 3024], 0, 5, 5⟩

/-- The same record with a non-zero `TakenAt`. -/
def metaComplete : ImageMetadata :=
  ⟨"rec1", "beach.jpg", "image/jpeg", ⟨"-0.127800", "51.507400"⟩, "beach.jpg",
   "London, United Kingdom", "Wednesday, 15 January 2025, 14:30",
   [4032, 3024], 1736951400, 5, 5⟩

/-- Sync collaborators for the C3 counterexample: the lookup finds
`metaNoTakenAt` and the Drive download fails, which makes the download
attempt observable in the result. -/
def syncOraclesNoTakenAt : SyncOracles :=
  ⟨some metaNoTakenAt, .error (.errorf "network down"),
   fun _ => .error (.errorf "not heic"),
   fun _ _ _ => .ok (), fun _ _ _ _ => .ok ()⟩

/-- Sync collaborators whose lookup finds the complete record. -/
def syncOraclesComplete : SyncOracles :=
  ⟨some metaComplete, .error (.errorf "network down"),
   fun _ => .error (.errorf "not heic"),
   fun _ _ _ => .ok (), fun _ _ _ _ => .ok ()⟩

/-- A plain JPEG Drive file descriptor. -/
def fileJpeg : DriveFile :=
  ⟨"drive1", "beach.jpg", "image/jpeg", "jpg", "2025-01-15T14:30:00Z", none⟩

/-- A HEIC Drive file descriptor. -/
def fileHeic : DriveFile :=
  ⟨"drive2", "IMG_0042.HEIC", "image/heic", "heic", "2025-01-15T14:30:00Z", none⟩

/-- A converter that always fails (corrupt HEIC payload). -/
def convFail : List Nat → Except GoError (List Nat) :=
  fun _ => .error (.errorf "failed to decode HEIC")

/-- Sync collaborators for the C5 witness: no existing record, the download
yields bytes, the HEIC conversion fails, upload and persistence succeed. -/
def syncOraclesConvFail : SyncOracles :=
  ⟨none, .ok [7, 7, 7], convFail, fun _ _ _ => .ok (), fun _ _ _ _ => .ok ()⟩

/-- The exact binary64 value of `strconv.ParseFloat("51.50735", 64)`:
`51.50735000000000240…`, strictly above the 4-decimal midpoint. -/
def lat51_50735 : GoFloat := ⟨false, 7249015070838804, -47⟩

/-- The exact binary64 value of `strconv.ParseFloat("51.50739", 64)`. -/
def lat51_50739 : GoFloat := ⟨false, 7249020700338338, -47⟩

/-- The exact binary64 value of `strconv.ParseFloat("-0.1278", 64)`. -/
def lngNeg0_1278 : GoFloat := ⟨true, 4604480259023595, -55⟩

/-- A Nominatim response with a city and a country. -/
def respLondon : NominatimAddress := ⟨"London", "", "", "United Kingdom"⟩

/-- An upstream Nominatim endpoint that answers `respLondon` everywhere. -/
def upstreamLondon : GoFloat → GoFloat → Except GoError NominatimAddress :=
  fun _ _ => .ok respLondon

/-- EXIF oracle for the C4 witness: GPS fix at (51.50735, -0.1278), a
primary DateTime value, no fallback tag needed. -/
def exifWithGpsAndTime : utils.ExifInput :=
  ⟨none, .ok (lat51_50735, lngNeg0_1278), .ok ⟨2025, 1, 15, 14, 30, 0⟩,
   .error (.errorf "tag not present"), .error (.errorf "no config")⟩

/-- A record with no coordinates, place or date. -/
def metaEmpty : ImageMetadata :=
  ⟨"", "beach.jpg", "image/jpeg", ⟨"", ""⟩, "beach.jpg", "", "", [], 0, 0, 0⟩

/-- A Drive descriptor carrying different embedded GPS coordinates, as in
the fallback-order scenario. -/
def fileWithDriveGps : DriveFile :=
  ⟨"drive3", "beach.jpg", "image/jpeg", "jpg", "2025-01-15T14:30:00Z",
   some ⟨some (⟨false, 9007199254740992, -47⟩, ⟨false, 9007199254740992, -50⟩),
     "2020:06:01 10:00:00"⟩⟩

/-- Resolver collaborators for the C4 witness: the storage fetch succeeds,
extraction succeeds, and a Drive lookup with different coordinates is
available but must never be consulted. -/
def resolverOraclesStorage : ResolverOracles :=
  ⟨.ok [1, 2, 3], exifWithGpsAndTime, true, .ok fileWithDriveGps,
   fun _ => .ok "London, United Kingdom",
   fun _ => .ok "Wednesday, 15 January 2025, 14:30", 99⟩

/-- EXIF oracle for the C9 witness: a GPS fix, a failing primary DateTime
and an unparseable DateTimeOriginal string. -/
def exifGpsNoTimestamp : utils.ExifInput :=
  ⟨none, .ok (⟨false, 1, 0⟩, ⟨false, 1, 0⟩), .error (.errorf "datetime missing"),
   .ok ⟨.ok "not a timestamp"⟩, .ok (100, 80)⟩

/-! # Theorems for the claims -/

/-- Helper: when the part_015 `ExtractData` succeeds, the timestamp it
returns is non-empty (the code errors out otherwise). -/
theorem V15_extract_ok_ts_ne (x : utils.ExifInput) (c : Coordinates) (ts : String)
    (h : V15.ExtractData x = (c, ts, none)) : ts ≠ "" := by
  unfold V15.ExtractData at h
  cases hd : x.decodeErr with
  | some e => rw [hd] at h; simp at h
  | none =>
      rw [hd] at h
      cases hl : x.latLong with
      | error e => rw [hl] at h; simp at h
      | ok p =>
          rw [hl] at h
          obtain ⟨lat, lon⟩ := p
          rcases htv : utils.timestampOfExif x with ⟨tsv, le⟩
          rw [htv] at h
          by_cases hts : tsv = ""
          · simp [hts] at h
          · simp [hts] at h
            rw [← h.2]
            exact hts

/-- Helper: reading back the key just written into a Go map. -/
theorem mapGetD_mapSet_self (m : List (String × String)) (k v : String) :
    mapGetD (mapSet m k v) k = v := by
  simp [mapGetD, mapGet?, mapSet]

/-- Claim C1: for every download whose every attempt fails with a rate-limit
(HTTP 403/429) error, `DriveClient.DownloadBytes` sleeps the doubling
backoff sequence 5s, 10s, 20s, 40s, 80s across its retry bound of 5
retries, and then returns the final provider error to the caller. -/
theorem C1_download_backoff (attempts : Nat → DlAttempt) (es : Nat → GoError)
    (h : ∀ i, i ≤ 5 → attempts i = .httpErr (es i) ∧ isRateLimitErr (es i) = true) :
    DriveClient.DownloadBytes attempts = (.error (es 5), [5, 10, 20, 40, 80]) := by
  have h0 := h 0 (by omega)
  have h1 := h 1 (by omega)
  have h2 := h 2 (by omega)
  have h3 := h 3 (by omega)
  have h4 := h 4 (by omega)
  have h5 := h 5 (by omega)
  simp [DriveClient.DownloadBytes, DriveClient.downloadBytesGo,
    h0.1, h0.2, h1.1, h1.2, h2.1, h2.2, h3.1, h3.2, h4.1, h4.2, h5.1, h5.2]

/-- Witness for C1 at a concrete all-429 attempt sequence. -/
theorem C1_download_backoff_witness :
    DriveClient.DownloadBytes (fun _ => .httpErr (.googleapiError 429 "rateLimitExceeded")) =
      (.error (.googleapiError 429 "rateLimitExceeded"), [5, 10, 20, 40, 80]) :=
  C1_download_backoff (fun _ => .httpErr (.googleapiError 429 "rateLimitExceeded"))
    (fun _ => .googleapiError 429 "rateLimitExceeded")
    (fun _ _ => ⟨rfl, rfl⟩)

/-- Claim C2 as stated is false: the cooldown is NOT taken only when three
consecutive failures are all rate-limited — two generic failures followed
by one rate-limited failure already trigger it, because the code classifies
only the current error. -/
theorem C2_counterexample :
    (DriveService.BackfillFromDrive
        [DriveService.FileOutcome.err (.errorf "infra failure one"),
         DriveService.FileOutcome.err (.errorf "infra failure two"),
         DriveService.FileOutcome.err (.googleapiError 403 "userRateLimitExceeded")]).1.cooldowns = 1 ∧
    isRateLimitErr (.errorf "infra failure one") = false ∧
    isRateLimitErr (.errorf "infra failure two") = false := by
  decide

/-- Claim C2, amended: the counter is reset to zero on any success; the
cooldown is taken exactly when the current file failure is rate-limited and
the consecutive-failure counter (counting failures of any classification)
has reached three; it resets the counter to zero; and a run of three
rate-limited failures from a clean counter takes exactly one cooldown,
after which the counter is zero. -/
theorem C2_amended (st : DriveService.BackfillState) (o : DriveService.FileOutcome)
    (e1 e2 e3 : GoError) :
    ((DriveService.backfillStep st o).cooldowns = st.cooldowns + 1 ↔
      (∃ e, o = .err e ∧ isRateLimitErr e = true ∧ 2 ≤ st.consecutiveErrors)) ∧
    ((DriveService.backfillStep st .ok).consecutiveErrors = 0) ∧
    ((DriveService.backfillStep st o).cooldowns = st.cooldowns + 1 →
      (DriveService.backfillStep st o).consecutiveErrors = 0) ∧
    (isRateLimitErr e1 = true → isRateLimitErr e2 = true → isRateLimitErr e3 = true →
      st.consecutiveErrors = 0 →
      (([DriveService.FileOutcome.err e1, .err e2, .err e3].foldl
          DriveService.backfillStep st).cooldowns = st.cooldowns + 1 ∧
       ([DriveService.FileOutcome.err e1, .err e2, .err e3].foldl
          DriveService.backfillStep st).consecutiveErrors = 0)) := by
  obtain ⟨n, ec, cc, cd⟩ := st
  refine ⟨?_, by simp [DriveService.backfillStep], ?_, ?_⟩
  · cases o with
    | ok =>
        simp [DriveService.backfillStep]
    | err e =>
        simp only [DriveService.backfillStep]
        by_cases hcond : (isRateLimitErr e && decide (3 ≤ cc + 1)) = true
        · rw [if_pos hcond]
          simp only [Bool.and_eq_true, decide_eq_true_eq] at hcond
          constructor
          · intro _
            exact ⟨e, rfl, hcond.1, by omega⟩
          · intro _
            rfl
        · rw [if_neg hcond]
          simp only [Bool.and_eq_true, decide_eq_true_eq, not_and] at hcond
          constructor
          · intro hcd
            exact absurd hcd (by simp)
          · rintro ⟨e', he', hrl, hcc2⟩
            injection he' with he
            subst he
            have := hcond hrl
            omega
  · cases o with
    | ok =>
        intro _
        simp [DriveService.backfillStep]
    | err e =>
        simp only [DriveService.backfillStep]
        by_cases hcond : (isRateLimitErr e && decide (3 ≤ cc + 1)) = true
        · rw [if_pos hcond]
          intro _
          rfl
        · rw [if_neg hcond]
          intro hcd
          exact absurd hcd (by simp)
  · intro hr1 hr2 hr3 hcc
    simp only at hcc
    subst hcc
    simp [DriveService.backfillStep, hr1, hr2, hr3]

/-- Witness for the amended C2 at a concrete state and outcomes. -/
theorem C2_amended_witness :
    ((DriveService.backfillStep ⟨0, 0, 2, 0⟩ (.err (.googleapiError 429 "q"))).cooldowns = 0 + 1 ↔
      (∃ e, DriveService.FileOutcome.err (.googleapiError 429 "q") = .err e ∧
        isRateLimitErr e = true ∧
        2 ≤ (DriveService.BackfillState.mk 0 0 2 0).consecutiveErrors)) ∧
    ((DriveService.backfillStep ⟨0, 0, 2, 0⟩ .ok).consecutiveErrors = 0) ∧
    ((DriveService.backfillStep ⟨0, 0, 2, 0⟩ (.err (.googleapiError 429 "q"))).cooldowns = 0 + 1 →
      (DriveService.backfillStep ⟨0, 0, 2, 0⟩ (.err (.googleapiError 429 "q"))).consecutiveErrors = 0) ∧
    (isRateLimitErr (.googleapiError 403 "a") = true →
      isRateLimitErr (.googleapiError 429 "b") = true →
      isRateLimitErr (.googleapiError 403 "c") = true →
      (DriveService.BackfillState.mk 7 1 0 0).consecutiveErrors = 0 →
      (([DriveService.FileOutcome.err (.googleapiError 403 "a"),
         .err (.googleapiError 429 "b"), .err (.googleapiError 403 "c")].foldl
          DriveService.backfillStep ⟨7, 1, 0, 0⟩).cooldowns = 0 + 1 ∧
       ([DriveService.FileOutcome.err (.googleapiError 403 "a"),
         .err (.googleapiError 429 "b"), .err (.googleapiError 403 "c")].foldl
          DriveService.backfillStep ⟨7, 1, 0, 0⟩).consecutiveErrors = 0)) := by
  have hA := C2_amended ⟨0, 0, 2, 0⟩ (.err (.googleapiError 429 "q"))
    (.googleapiError 403 "a") (.googleapiError 429 "b") (.googleapiError 403 "c")
  have hB := C2_amended ⟨7, 1, 0, 0⟩ (.err (.googleapiError 429 "q"))
    (.googleapiError 403 "a") (.googleapiError 429 "b") (.googleapiError 403 "c")
  exact ⟨hA.1, hA.2.1, hA.2.2.1, hB.2.2.2⟩

/-- Claim C3 as stated is false: completeness is not decided by
coordinates, place name and formatted date alone — `hasEmptyFields` also
requires a non-zero `TakenAt`.  A record with all three fields non-empty
but a zero `TakenAt` is treated as incomplete, and a sync pass does attempt
the download for it. -/
theorem C3_counterexample :
    utils.HasEmptyFields metaNoTakenAt = true ∧
    metaNoTakenAt.coordinates.lat ≠ "" ∧
    metaNoTakenAt.coordinates.lng ≠ "" ∧
    metaNoTakenAt.geoLocation ≠ "" ∧
    metaNoTakenAt.formattedDate ≠ "" ∧
    (DriveService.SyncFile syncOraclesNoTakenAt fileJpeg false).2 = true := by
  decide

/-- Claim C3, amended: a MediaRecord counts as complete — and is skipped by
a sync pass without re-downloading — iff its coordinates (lat and lng),
place name, formatted capture date are all non-empty AND its capture
timestamp (`TakenAt`) is non-zero. -/
theorem C3_amended (m : ImageMetadata) (oc : SyncOracles) (file : DriveFile) :
    (utils.HasEmptyFields m = false ↔
      (m.coordinates.lat ≠ "" ∧ m.coordinates.lng ≠ "" ∧ m.geoLocation ≠ "" ∧
        m.formattedDate ≠ "" ∧ m.takenAt ≠ 0)) ∧
    (hasPrefixGo file.mimeType "image/" = true →
      oc.firestoreLookup = some m →
      utils.HasEmptyFields m = false →
      DriveService.SyncFile oc file false = (.ok (), false)) := by
  constructor
  · by_cases hg : m.geoLocation = "" <;>
      by_cases hla : m.coordinates.lat = "" <;>
        by_cases hln : m.coordinates.lng = "" <;>
          by_cases hfd : m.formattedDate = "" <;>
            by_cases hta : m.takenAt = 0 <;>
              simp [utils.HasEmptyFields, utils.hasEmptyFields, hg, hla, hln, hfd, hta]
  · intro him hlk hcomp
    simp [DriveService.SyncFile, him, hlk, hcomp]

/-- Witness for the amended C3 at the concrete complete record. -/
theorem C3_amended_witness :
    (utils.HasEmptyFields metaComplete = false ↔
      (metaComplete.coordinates.lat ≠ "" ∧ metaComplete.coordinates.lng ≠ "" ∧
        metaComplete.geoLocation ≠ "" ∧ metaComplete.formattedDate ≠ "" ∧
        metaComplete.takenAt ≠ 0)) ∧
    DriveService.SyncFile syncOraclesComplete fileJpeg false = (.ok (), false) :=
  ⟨(C3_amended metaComplete syncOraclesComplete fileJpeg).1,
   (C3_amended metaComplete syncOraclesComplete fileJpeg).2 (by decide) rfl (by decide)⟩

/-- Claim C4: for a record with no existing coordinates or date, when the
object-store fetch succeeds and metadata extraction from those bytes
succeeds (yielding GPS coordinates), resolution uses the bytes-embedded
coordinates and the Drive-metadata stage is never entered: the store stage
runs first and the provider stage is guarded by coordinates or a timestamp
still missing. -/
theorem C4_storage_stage_first (oc : ResolverOracles) (m : ImageMetadata)
    (coords : Coordinates) (ts : String) (data : List Nat)
    (hlat : m.coordinates.lat = "")
    (hlng : m.coordinates.lng = "")
    (hdate : m.formattedDate = "")
    (hfetch : oc.fetchFile = .ok data)
    (hex : V15.ExtractData oc.exifOfStorageBytes = (coords, ts, none)) :
    (MetadataResolver.ResolveMetadata oc m).2 = false ∧
    (MetadataResolver.ResolveMetadata oc m).1.coordinates = coords := by
  have hts : ts ≠ "" := V15_extract_ok_ts_ne _ _ _ hex
  have hhe : V15.HasEmptyFields m true = true := by
    simp [V15.HasEmptyFields, hlat, hlng, hdate]
  constructor
  · simp [MetadataResolver.ResolveMetadata, MetadataResolver.resolveMetadata,
      hhe, hfetch, hex, hts]
  · simp only [MetadataResolver.ResolveMetadata, MetadataResolver.resolveMetadata]
    simp [hhe, hfetch, hex, hts]
    cases hg : oc.geocode coords with
    | error e =>
        cases hf : oc.formatTimestamp ts <;> simp [hg, hf]
    | ok location =>
        by_cases hloc : location = "" <;>
          cases hf : oc.formatTimestamp ts <;> simp [hg, hf, hloc]

/-- Witness for C4 at concrete oracles whose Drive descriptor carries
different embedded coordinates. -/
theorem C4_storage_stage_first_witness :
    (MetadataResolver.ResolveMetadata resolverOraclesStorage metaEmpty).2 = false ∧
    (MetadataResolver.ResolveMetadata resolverOraclesStorage metaEmpty).1.coordinates =
      ⟨"-0.127800", "51.507350"⟩ :=
  C4_storage_stage_first resolverOraclesStorage metaEmpty
    ⟨"-0.127800", "51.507350"⟩ "2025-01-15T14:30:00Z" [1, 2, 3]
    rfl rfl rfl rfl (by decide)

/-- Claim C9: when the EXIF block decodes and carries a valid GPS fix but
neither the primary DateTime tag nor the DateTimeOriginal fallback yields a
parseable value, `ExtractData` returns an error with empty coordinates —
the GPS fix is discarded rather than returned alone. -/
theorem C9_gps_discarded_without_timestamp (x : utils.ExifInput)
    (lat lon : GoFloat) (e1 : GoError)
    (hdec : x.decodeErr = none)
    (hgps : x.latLong = .ok (lat, lon))
    (hdt : x.dateTime = .error e1)
    (hfb : (∃ e, x.dateTimeOriginal = .error e) ∨
           (∃ tag e, x.dateTimeOriginal = .ok tag ∧ tag.stringVal = .error e) ∨
           (∃ tag s, x.dateTimeOriginal = .ok tag ∧ tag.stringVal = .ok s ∧
             utils.parseExifDateTime s = none)) :
    ∃ err, utils.ExtractData x = (⟨"", ""⟩, "", [], some err) := by
  have hts : (utils.timestampOfExif x).1 = "" := by
    rcases hfb with ⟨e, he⟩ | ⟨tag, e, htag, hsv⟩ | ⟨tag, s, htag, hsv, hp⟩
    · simp [utils.timestampOfExif, hdt, he]
    · simp [utils.timestampOfExif, hdt, htag, hsv]
    · simp [utils.timestampOfExif, hdt, htag, hsv, hp]
  refine ⟨.wrap "failed to parse timestamp"
    (((utils.timestampOfExif x).2).getD (.errorf "nil")), ?_⟩
  simp [utils.ExtractData, hdec, hgps, hts]

/-- Witness for C9 at a concrete EXIF input with a GPS fix, a failing
DateTime and an unparseable DateTimeOriginal string. -/
theorem C9_gps_discarded_witness :
    ∃ err, utils.ExtractData exifGpsNoTimestamp = (⟨"", ""⟩, "", [], some err) :=
  C9_gps_discarded_without_timestamp exifGpsNoTimestamp
    ⟨false, 1, 0⟩ ⟨false, 1, 0⟩ (.errorf "datetime missing")
    rfl rfl rfl
    (Or.inr (Or.inr ⟨⟨.ok "not a timestamp"⟩, "not a timestamp", rfl, rfl, by decide⟩))

/-- Claim C5: when the HEIC-to-JPEG conversion fails, `ConvertIfHeic`
returns the original name, MIME type and bytes; inside `SyncFile` the run
continues with the original name/MIME/bytes, and the per-file sync result
is never an error on account of the conversion failure (it succeeds
whenever upload and persistence succeed). -/
theorem C5_conversion_fallback (conv : List Nat → Except GoError (List Nat))
    (name mime : String) (data : List Nat) (e : GoError)
    (oc : SyncOracles) (file : DriveFile) (raw : List Nat) :
    (utils.IsHeifLike mime = true → conv data = .error e →
      utils.ConvertIfHeic conv name mime data = (name, mime, data)) ∧
    (hasPrefixGo file.mimeType "image/" = true →
      (∀ m, oc.firestoreLookup = some m → utils.HasEmptyFields m = true) →
      oc.download = .ok raw →
      utils.IsHeifLike file.mimeType = true →
      oc.convert raw = .error e →
      DriveService.SyncFile oc file false =
        (DriveService.uploadAndPersist oc file.name file.mimeType raw
          oc.firestoreLookup, true)) ∧
    (hasPrefixGo file.mimeType "image/" = true →
      (∀ m, oc.firestoreLookup = some m → utils.HasEmptyFields m = true) →
      oc.download = .ok raw →
      utils.IsHeifLike file.mimeType = true →
      oc.convert raw = .error e →
      oc.upload file.name raw file.mimeType = .ok () →
      oc.resolvePersist file.name file.mimeType raw oc.firestoreLookup = .ok () →
      (DriveService.SyncFile oc file false).1 = .ok ()) := by
  have hsync : hasPrefixGo file.mimeType "image/" = true →
      (∀ m, oc.firestoreLookup = some m → utils.HasEmptyFields m = true) →
      oc.download = .ok raw →
      utils.IsHeifLike file.mimeType = true →
      oc.convert raw = .error e →
      DriveService.SyncFile oc file false =
        (DriveService.uploadAndPersist oc file.name file.mimeType raw
          oc.firestoreLookup, true) := by
    intro him hskip hdl hheif hconv
    cases hfl : oc.firestoreLookup with
    | none => simp [DriveService.SyncFile, him, hfl, hdl, hheif, hconv]
    | some m =>
        have hm := hskip m hfl
        simp [DriveService.SyncFile, him, hfl, hm, hdl, hheif, hconv]
  refine ⟨?_, hsync, ?_⟩
  · intro hh hc
    simp [utils.ConvertIfHeic, hh, hc]
  · intro him hskip hdl hheif hconv hup hrp
    rw [hsync him hskip hdl hheif hconv]
    simp [DriveService.uploadAndPersist, hup, hrp]

/-- Witness for C5 at a concrete corrupt HEIC input. -/
theorem C5_conversion_fallback_witness :
    utils.ConvertIfHeic convFail "IMG_0042.HEIC" "image/heic" [1, 2] =
      ("IMG_0042.HEIC", "image/heic", [1, 2]) ∧
    DriveService.SyncFile syncOraclesConvFail fileHeic false =
      (DriveService.uploadAndPersist syncOraclesConvFail fileHeic.name
        fileHeic.mimeType [7, 7, 7] syncOraclesConvFail.firestoreLookup, true) ∧
    (DriveService.SyncFile syncOraclesConvFail fileHeic false).1 = .ok () := by
  have h := C5_conversion_fallback convFail "IMG_0042.HEIC" "image/heic" [1, 2]
    (.errorf "failed to decode HEIC") syncOraclesConvFail fileHeic [7, 7, 7]
  refine ⟨h.1 (by decide) rfl, ?_, ?_⟩
  · exact h.2.1 (by decide) (fun m hm => by simp [syncOraclesConvFail] at hm)
      rfl (by decide) rfl
  · exact h.2.2 (by decide) (fun m hm => by simp [syncOraclesConvFail] at hm)
      rfl (by decide) rfl rfl rfl

/-- Claim C6 as stated is false for the `Set` of
internal/services/cache.go: a call with an empty payload (and likewise an
empty key) does change the map, and the poisoned entry is then served by
`Get`. -/
theorem C6_counterexample :
    CacheGo.Set 60 0 [] "photo.jpg" [] "image/jpeg" "London" "photo.jpg" ≠ [] ∧
    CacheGo.Set 60 0 [] "" [1, 2] "image/jpeg" "London" "photo.jpg" ≠ [] ∧
    (CacheGo.Get 1 (CacheGo.Set 60 0 [] "photo.jpg" [] "image/jpeg" "London" "photo.jpg")
      "photo.jpg").2 = true := by
  decide

/-- Claim C6, amended: the empty-key/empty-payload guard exists in the
`CacheService.Set` variant of src/unnamed/part_009, where such a call
leaves the cache map unchanged; the variant in internal/services/cache.go
has no guard and inserts the entry. -/
theorem C6_amended (ttl now : Int) (cache : List (String × CacheEntry))
    (key : String) (data : List Nat) (ct gl fn : String)
    (h : key = "" ∨ data = []) :
    Cache009.Set ttl now cache key data ct gl fn = cache := by
  rcases h with h | h <;> simp [Cache009.Set, h]

/-- Witness for the amended C6 at concrete inputs. -/
theorem C6_amended_witness :
    Cache009.Set 60 0 [("k", ⟨[9], "image/png", "Paris", "p.png", 9⟩)]
      "" [1] "image/jpeg" "London" "photo.jpg" =
      [("k", ⟨[9], "image/png", "Paris", "p.png", 9⟩)] :=
  C6_amended 60 0 [("k", ⟨[9], "image/png", "Paris", "p.png", 9⟩)]
    "" [1] "image/jpeg" "London" "photo.jpg" (Or.inl rfl)

/-- Claim C7 as stated is false: on zero results `Find` returns a plain
`fmt.Errorf` value, not a sentinel — `errors.Is` against `ErrNotFound`
reports false, so callers cannot branch on "not found" without string
matching. -/
theorem C7_counterexample :
    DriveClient.Find (fun _ => .ok []) "IMG_0001.jpg" =
      .error (.errorf "file not found in drive: IMG_0001.jpg") ∧
    errorsIs (.errorf "file not found in drive: IMG_0001.jpg")
      .sentinelNotFound = false := by
  decide

/-- Claim C7, amended: when the listing succeeds with zero matches, `Find`
returns a non-nil formatted error with message
"file not found in drive: name"; that value is not the `ErrNotFound`
sentinel under `errors.Is` and is not classified as a `googleapi` error by
`errors.As`, so distinguishing it requires string matching. -/
theorem C7_amended (listCall : Nat → Except GoError (List DriveFile))
    (name : String) (h : listCall 0 = .ok []) :
    DriveClient.Find listCall name =
      .error (.errorf ("file not found in drive: " ++ name)) ∧
    errorsIs (.errorf ("file not found in drive: " ++ name))
      .sentinelNotFound = false ∧
    errorsAsGoogleapi (.errorf ("file not found in drive: " ++ name)) = none := by
  refine ⟨?_, by simp [errorsIs], by simp [errorsAsGoogleapi]⟩
  simp [DriveClient.Find, DriveClient.findGo, h]

/-- Claim C10: the geocode cache never serves an empty place string as a
hit — a successful `ReverseGeocode` that made no upstream request returns a
non-empty value; and a coordinate whose upstream response has no city,
town, village or country (so `extractLocation` is empty) is re-requested
upstream on every subsequent call. -/
theorem C10_no_empty_cache_hit
    (upstream : GoFloat → GoFloat → Except GoError NominatimAddress)
    (st : GeocodingService.GeoState) (c : Coordinates) :
    (∀ r st', GeocodingService.ReverseGeocode upstream st c = (.ok r, st') →
      st'.upstreamCalls = st.upstreamCalls → r ≠ "") ∧
    (∀ lat lng key resp,
      GeocodingService.normalizeCoordinates c = .ok (lat, lng, key) →
      mapGetD st.cache key = "" →
      upstream lat lng = .ok resp →
      GeocodingService.extractLocation resp = "" →
      ((GeocodingService.ReverseGeocode upstream st c).2.upstreamCalls =
        st.upstreamCalls + 1 ∧
       (GeocodingService.ReverseGeocode upstream
          (GeocodingService.ReverseGeocode upstream st c).2 c).2.upstreamCalls =
        st.upstreamCalls + 2)) := by
  constructor
  · intro r st' h hcalls
    unfold GeocodingService.ReverseGeocode at h
    cases hn : GeocodingService.normalizeCoordinates c with
    | error e => rw [hn] at h; simp at h
    | ok triple =>
        obtain ⟨lat, lng, key⟩ := triple
        rw [hn] at h
        dsimp only at h
        by_cases hcache : mapGetD st.cache key ≠ ""
        · rw [if_pos hcache] at h
          have hr := Except.ok.inj (congrArg Prod.fst h)
          rw [← hr]
          exact hcache
        · rw [if_neg hcache] at h
          cases hup : upstream lat lng with
          | error e =>
              rw [hup] at h
              dsimp only at h
              simp at h
          | ok resp =>
              rw [hup] at h
              dsimp only at h
              have hcalls' := congrArg (fun q => q.2.upstreamCalls) h
              dsimp only at hcalls'
              split at hcalls' <;> simp at hcalls' <;> omega
  · intro lat lng key resp hn hcache hup hempty
    have h1 : GeocodingService.ReverseGeocode upstream st c =
        (.ok "", ⟨mapSet st.cache key "", st.upstreamCalls + 1⟩) := by
      unfold GeocodingService.ReverseGeocode
      rw [hn]
      dsimp only
      rw [if_neg (by simp [hcache])]
      rw [hup]
      dsimp only
      rw [hempty]
      rw [if_neg (by simp [hcache])]
    have h2 : mapGetD (mapSet st.cache key "") key = "" :=
      mapGetD_mapSet_self st.cache key ""
    constructor
    · rw [h1]
    · rw [h1]
      unfold GeocodingService.ReverseGeocode
      rw [hn]
      dsimp only
      rw [if_neg (by simp [h2])]
      rw [hup]
      dsimp only
      rw [hempty]
      rw [if_neg (by simp [h2])]

/-- Witness for C10 at a concrete cache state and an upstream that returns
a response with no city/town/village/country. -/
theorem C10_no_empty_cache_hit_witness :
    ("London, United Kingdom" ≠ "") ∧
    (((GeocodingService.ReverseGeocode (fun _ _ => .ok ⟨"", "", "", ""⟩)
        GeocodingService.initState ⟨"-0.1278", "51.50735"⟩).2.upstreamCalls =
        GeocodingService.initState.upstreamCalls + 1) ∧
      ((GeocodingService.ReverseGeocode (fun _ _ => .ok ⟨"", "", "", ""⟩)
          (GeocodingService.ReverseGeocode (fun _ _ => .ok ⟨"", "", "", ""⟩)
            GeocodingService.initState ⟨"-0.1278", "51.50735"⟩).2
          ⟨"-0.1278", "51.50735"⟩).2.upstreamCalls =
        GeocodingService.initState.upstreamCalls + 2)) := by
  constructor
  · have hhit := (C10_no_empty_cache_hit (fun _ _ => .ok respLondon)
      ⟨[("51.5074," ++ "-0.1278", "London, United Kingdom")], 3⟩
      ⟨"-0.1278", "51.50735"⟩).1
    exact hhit "London, United Kingdom"
      ⟨[("51.5074," ++ "-0.1278", "London, United Kingdom")], 3⟩ (by decide) rfl
  · exact (C10_no_empty_cache_hit (fun _ _ => .ok ⟨"", "", "", ""⟩)
      GeocodingService.initState ⟨"-0.1278", "51.50735"⟩).2
      lat51_50735 lngNeg0_1278 ("51.5074" ++ "," ++ "-0.1278") ⟨"", "", "", ""⟩
      (by decide) (by decide) rfl rfl

/-- Claim C8: the geocoder cache key is the coordinate pair formatted to 4
decimal places; latitude strings "51.50735" and "51.50739" produce the same
key, and two sequential `ReverseGeocode` calls with them make exactly one
upstream Nominatim request — the second is served from the cache. -/
theorem C8_geocode_key_rounding
    (upstream : GoFloat → GoFloat → Except GoError NominatimAddress)
    (lngS : String) (lngF : GoFloat) (resp : NominatimAddress)
    (hlng : parseGoFloat (trimSpace lngS) = some lngF)
    (hup : ∀ la ln, upstream la ln = .ok resp)
    (hres : GeocodingService.extractLocation resp ≠ "") :
    (∃ la1 la2 k,
      GeocodingService.normalizeCoordinates ⟨lngS, "51.50735"⟩ = .ok (la1, lngF, k) ∧
      GeocodingService.normalizeCoordinates ⟨lngS, "51.50739"⟩ = .ok (la2, lngF, k)) ∧
    (GeocodingService.ReverseGeocode upstream GeocodingService.initState
        ⟨lngS, "51.50735"⟩).1 = .ok (GeocodingService.extractLocation resp) ∧
    ((GeocodingService.ReverseGeocode upstream
        (GeocodingService.ReverseGeocode upstream GeocodingService.initState
          ⟨lngS, "51.50735"⟩).2 ⟨lngS, "51.50739"⟩).1 =
      .ok (GeocodingService.extractLocation resp)) ∧
    ((GeocodingService.ReverseGeocode upstream
        (GeocodingService.ReverseGeocode upstream GeocodingService.initState
          ⟨lngS, "51.50735"⟩).2 ⟨lngS, "51.50739"⟩).2.upstreamCalls = 1) := by
  have hp1 : parseGoFloat (trimSpace "51.50735") = some lat51_50735 := by decide
  have hp2 : parseGoFloat (trimSpace "51.50739") = some lat51_50739 := by decide
  have hf1 : formatFixed 4 lat51_50735 = "51.5074" := by decide
  have hf2 : formatFixed 4 lat51_50739 = "51.5074" := by decide
  have hn1 : GeocodingService.normalizeCoordinates ⟨lngS, "51.50735"⟩ =
      .ok (lat51_50735, lngF, "51.5074" ++ "," ++ formatFixed 4 lngF) := by
    unfold GeocodingService.normalizeCoordinates
    simp only [hp1, hlng, hf1]
  have hn2 : GeocodingService.normalizeCoordinates ⟨lngS, "51.50739"⟩ =
      .ok (lat51_50739, lngF, "51.5074" ++ "," ++ formatFixed 4 lngF) := by
    unfold GeocodingService.normalizeCoordinates
    simp only [hp2, hlng, hf2]
  have hplace := hres
  have hc1 : GeocodingService.ReverseGeocode upstream GeocodingService.initState
      ⟨lngS, "51.50735"⟩ =
      (.ok (GeocodingService.extractLocation resp),
       ⟨mapSet [] ("51.5074" ++ "," ++ formatFixed 4 lngF)
          (GeocodingService.extractLocation resp), 1⟩) := by
    unfold GeocodingService.ReverseGeocode GeocodingService.initState
    rw [hn1]
    dsimp only
    rw [if_neg (by simp [mapGetD, mapGet?])]
    rw [hup]
    dsimp only
    rw [if_neg (by simp [mapGetD, mapGet?])]
  have h2 : mapGetD (mapSet [] ("51.5074" ++ "," ++ formatFixed 4 lngF)
      (GeocodingService.extractLocation resp))
      ("51.5074" ++ "," ++ formatFixed 4 lngF) =
      GeocodingService.extractLocation resp :=
    mapGetD_mapSet_self [] _ _
  have hc2 : GeocodingService.ReverseGeocode upstream
      (GeocodingService.ReverseGeocode upstream GeocodingService.initState
        ⟨lngS, "51.50735"⟩).2 ⟨lngS, "51.50739"⟩ =
      (.ok (GeocodingService.extractLocation resp),
       ⟨mapSet [] ("51.5074" ++ "," ++ formatFixed 4 lngF)
          (GeocodingService.extractLocation resp), 1⟩) := by
    rw [hc1]
    unfold GeocodingService.ReverseGeocode
    rw [hn2]
    dsimp only
    rw [if_pos (by rw [h2]; exact hres)]
    rw [h2]
  exact ⟨⟨lat51_50735, lat51_50739, "51.5074" ++ "," ++ formatFixed 4 lngF, hn1, hn2⟩,
    by rw [hc1], by rw [hc2], by rw [hc2]⟩

/-- Witness for C8 at the concrete upstream returning "London, United
Kingdom" and longitude "-0.1278". -/
theorem C8_geocode_key_rounding_witness :
    (∃ la1 la2 k,
      GeocodingService.normalizeCoordinates ⟨"-0.1278", "51.50735"⟩ =
        .ok (la1, lngNeg0_1278, k) ∧
      GeocodingService.normalizeCoordinates ⟨"-0.1278", "51.50739"⟩ =
        .ok (la2, lngNeg0_1278, k)) ∧
    (GeocodingService.ReverseGeocode upstreamLondon GeocodingService.initState
        ⟨"-0.1278", "51.50735"⟩).1 =
      .ok (GeocodingService.extractLocation respLondon) ∧
    ((GeocodingService.ReverseGeocode upstreamLondon
        (GeocodingService.ReverseGeocode upstreamLondon GeocodingService.initState
          ⟨"-0.1278", "51.50735"⟩).2 ⟨"-0.1278", "51.50739"⟩).1 =
      .ok (GeocodingService.extractLocation respLondon)) ∧
    ((GeocodingService.ReverseGeocode upstreamLondon
        (GeocodingService.ReverseGeocode upstreamLondon GeocodingService.initState
          ⟨"-0.1278", "51.50735"⟩).2 ⟨"-0.1278", "51.50739"⟩).2.upstreamCalls = 1) :=
  C8_geocode_key_rounding upstreamLondon "-0.1278" lngNeg0_1278 respLondon
    (by decide) (fun _ _ => rfl) (by decide)

/-- Witness for the amended C7 at a concrete empty listing. -/
theorem C7_amended_witness :
    DriveClient.Find (fun _ => .ok []) "IMG_0002.jpg" =
      .error (.errorf ("file not found in drive: " ++ "IMG_0002.jpg")) ∧
    errorsIs (.errorf ("file not found in drive: " ++ "IMG_0002.jpg"))
      .sentinelNotFound = false ∧
    errorsAsGoogleapi (.errorf ("file not found in drive: " ++ "IMG_0002.jpg")) = none :=
  C7_amended (fun _ => .ok []) "IMG_0002.jpg" rfl

end Trekka
